import Mathlib

set_option maxHeartbeats 1000000

/-!
Verification development for the ESP32 Nixie-tube NTP clock.

The definitions below are shallow embeddings of the C++ sources:
- `NixieTubeShield.h` (digit codec `SymbolArray` / `NUMERIC_DIGITS`,
  the SPI transfer routine `show()`, the DS1307 BCD codec),
- `NTP.h` (the NTP decode in `_getTime`, the retry loop in `getTime`,
  the RTC fallback `_getRTCTime`),
- the main sketch (the once-per-second `updateDisplay` scheduler).

Machine integers are modelled as `Nat` with explicit `% 2^w` at the points
where the C code can overflow; C array indexing is modelled with `List.get?`
style optional lookup, so an out-of-bounds access becomes `none` instead of
undefined behaviour.
-/

/-! ## Nixie tube shield: digit codec (NixieTubeShield.h) -/

/-- `unsigned int SymbolArray[10]={1, 2, 4, 8, 16, 32, 64, 128, 256, 512};`
(NixieTubeShield.h line 60). -/
def SymbolArray : List Nat := [1, 2, 4, 8, 16, 32, 64, 128, 256, 512]

/-- `#define DIGIT_BLANK 0xFF` — the hardware code stored for a blank digit. -/
def DIGIT_BLANK : Nat := 0xFF

/-- `#define BLANK_DIGIT 10` — the slot value used by callers to request a blank. -/
def BLANK_DIGIT : Nat := 10

/-- `int NUMERIC_DIGITS[11] = {DIGIT_0, …, DIGIT_9, DIGIT_BLANK};`
`setNXkDigit(d)` stores `NUMERIC_DIGITS[d]` into the `digits` array. -/
def NUMERIC_DIGITS : List Nat := [0, 1, 2, 3, 4, 5, 6, 7, 8, 9, DIGIT_BLANK]

/-- The hardware code stored by `setNXkDigit(d)`: the read `NUMERIC_DIGITS[d]`.
`none` models an out-of-bounds C array access. -/
def digitCode (d : Nat) : Option Nat := NUMERIC_DIGITS[d]?

/-- The 10-bit field read by `show()` for a stored code `c`: `SymbolArray[c]`.
`none` models an out-of-bounds C array access (the 10-entry array has no
entry for `DIGIT_BLANK = 0xFF`). -/
def symbolFor (c : Nat) : Option Nat := SymbolArray[c]?

/-- The 10-bit field that `show()` produces for a slot value `d`
(slot value `0..9` for digits, `10` for blank): the composition of the
`NUMERIC_DIGITS` store in `setNXkDigit` with the `SymbolArray` read. -/
def fieldFor (d : Nat) : Option Nat := (digitCode d).bind symbolFor

/-! ## DS1307 BCD codec (NixieTubeShield.h `decToBcd` / `bcdToDec`) -/

/-- `byte decToBcd(byte val) { return ((val / 10 * 16) + (val % 10)); }` —
the result is a `byte`, hence the `% 256`. -/
def decToBcd (val : Nat) : Nat := ((val / 10 * 16) + (val % 10)) % 256

/-- `byte bcdToDec(byte val) { return ((val / 16 * 10) + (val % 16)); }` -/
def bcdToDec (val : Nat) : Nat := ((val / 16 * 10) + (val % 16)) % 256

/-! ## `show()`: packing the transfer words (NixieTubeShield.h lines 140–183) -/

/-- `#define UpperDotsMask 0x80000000` -/
def UpperDotsMask : Nat := 0x80000000

/-- `#define LowerDotsMask 0x40000000` -/
def LowerDotsMask : Nat := 0x40000000

/-- One register word of `show()`: given the three stored digit codes that are
shifted to bit offsets 20, 10 and 0 and the `dotsEnabled` flag, build the
32-bit `Var32`.  `Var32 &= ~Mask` on a 32-bit unsigned is `&&& (2^32-1 - Mask)`:
`0xBFFFFFFF` clears bit 30 and `0x7FFFFFFF` clears bit 31. -/
def regWord (a b c : Nat) (dots : Bool) : Option Nat := do
  let sa ← symbolFor a
  let sb ← symbolFor b
  let sc ← symbolFor c
  let v0 := ((sa <<< 20) ||| (sb <<< 10)) ||| sc
  let v1 := if dots then v0 ||| LowerDotsMask else v0 &&& 0xBFFFFFFF
  let v2 := if dots then v1 ||| UpperDotsMask else v1 &&& 0x7FFFFFFF
  pure v2

/-- The six display slot values (each `0..9`, or `10` for blank), NX1 being the
most significant tube.  `setNX1Digit` writes `digits[5]`, …, `setNX6Digit`
writes `digits[0]`. -/
structure NixieFrame where
  nx1 : Nat
  nx2 : Nat
  nx3 : Nat
  nx4 : Nat
  nx5 : Nat
  nx6 : Nat
deriving DecidableEq

/-- The two 32-bit words transferred by `show()`:
REG1 packs `digits[0..2]` (NX6 ≪ 20, NX5 ≪ 10, NX4), then
REG0 packs `digits[3..5]` (NX3 ≪ 20, NX2 ≪ 10, NX1). -/
def showWords (f : NixieFrame) (dots : Bool) : Option (Nat × Nat) := do
  let c1 ← digitCode f.nx1
  let c2 ← digitCode f.nx2
  let c3 ← digitCode f.nx3
  let c4 ← digitCode f.nx4
  let c5 ← digitCode f.nx5
  let c6 ← digitCode f.nx6
  let reg1 ← regWord c6 c5 c4 dots
  let reg0 ← regWord c3 c2 c1 dots
  pure (reg1, reg0)

/-- The four `SPI.transfer(Var32 >> k)` calls for one word, most significant
byte first; `SPI.transfer` takes a byte, hence `% 256`. -/
def bytesOf (w : Nat) : List Nat :=
  [(w >>> 24) % 256, (w >>> 16) % 256, (w >>> 8) % 256, w % 256]

/-- The full byte sequence shifted out by `show()`: REG1's four bytes, then
REG0's four bytes, each most-significant byte first. -/
def showBytes (f : NixieFrame) (dots : Bool) : Option (List Nat) :=
  (showWords f dots).map (fun p => bytesOf p.1 ++ bytesOf p.2)

/-- Decode-by-inspection of one 10-bit one-hot digit field at bit offset
`off` of a transfer word: extract the field and find which single bit is
asserted. -/
def decodeSlot (w off : Nat) : Nat :=
  (List.range 10).findIdx (fun v => (w >>> off) % 1024 == 1 <<< v)

/-- Arithmetic value of one register word for digit symbols `1 <<< x` at
offset 20, `1 <<< y` at offset 10, `1 <<< z` at offset 0, dots at bits 30/31. -/
def regVal (x y z : Fin 10) (d : Bool) : Nat :=
  (1 <<< (x : Nat)) * 2 ^ 20 + (1 <<< (y : Nat)) * 2 ^ 10 + (1 <<< (z : Nat)) +
    (if d then 3 * 2 ^ 30 else 0)

/-! ### Codec helper lemmas -/

lemma digitCode_of_lt : ∀ v : Fin 10, digitCode (v : Nat) = some (v : Nat) := by
  decide

lemma regWord_eq_regVal : ∀ (x y z : Fin 10) (d : Bool),
    regWord (x : Nat) (y : Nat) (z : Nat) d = some (regVal x y z d) := by
  decide

lemma regVal_decode : ∀ (x y z : Fin 10) (d : Bool),
    ((regVal x y z d >>> 20) % 1024 = 1 <<< (x : Nat) ∧
      (regVal x y z d >>> 10) % 1024 = 1 <<< (y : Nat) ∧
      regVal x y z d % 1024 = 1 <<< (z : Nat)) ∧
    (decodeSlot (regVal x y z d) 20 = (x : Nat) ∧
      decodeSlot (regVal x y z d) 10 = (y : Nat) ∧
      decodeSlot (regVal x y z d) 0 = (z : Nat)) ∧
    ((regVal x y z d).testBit 30 = d ∧ (regVal x y z d).testBit 31 = d) ∧
    regVal x y z d < 2 ^ 32 := by
  decide

/-! ## Claim C1 / C9 / C4 theorems -/

/-- C1: for every slot value `v` in `0..9` the digit codec produces a 10-bit
field with exactly one asserted bit, at position `v` (the field equals
`1 <<< v`).  For the BLANK slot value, however, the code stores
`DIGIT_BLANK = 0xFF` and `show()` then reads `SymbolArray[0xFF]` — an
out-of-bounds access of the 10-entry array, so no field with zero bits is
produced at all (the access is undefined behaviour in the C++ source, `none`
here), contradicting the claimed "zero bits asserted". -/
theorem fieldFor_digit_one_hot_blank_oob :
    (∀ v : Fin 10, fieldFor (v : Nat) = some (1 <<< (v : Nat))) ∧
    fieldFor BLANK_DIGIT = none ∧
    digitCode BLANK_DIGIT = some DIGIT_BLANK ∧
    symbolFor DIGIT_BLANK = none := by
  decide

/-- C9: for every decimal value `d` in `0..99`, `decToBcd` computes
`(d/10)*16 + d%10` and `bcdToDec` inverts it, so the round trip is the
identity on `0..99`. -/
theorem bcd_roundtrip :
    ∀ d : Fin 100,
      decToBcd (d : Nat) = (d : Nat) / 10 * 16 + (d : Nat) % 10 ∧
      bcdToDec (decToBcd (d : Nat)) = (d : Nat) := by
  decide

/-- C4: for every assignment of six slot values (each `0..9`) and the
indicator flag, `show()` deterministically produces two 32-bit words, each
packing three one-hot digit fields at bit offsets 20, 10 and 0, with the two
indicator bits 30 and 31 set identically from the single flag; the words are
transmitted most-significant byte first, and all six slot values are
recoverable by inspection of the two words. -/
theorem show_words_pack_roundtrip (v1 v2 v3 v4 v5 v6 : Fin 10) (dots : Bool) :
    ∃ w1 w0,
      showWords ⟨v1, v2, v3, v4, v5, v6⟩ dots = some (w1, w0) ∧
      ((w1 >>> 20) % 1024 = 1 <<< (v6 : Nat) ∧
        (w1 >>> 10) % 1024 = 1 <<< (v5 : Nat) ∧
        w1 % 1024 = 1 <<< (v4 : Nat)) ∧
      ((w0 >>> 20) % 1024 = 1 <<< (v3 : Nat) ∧
        (w0 >>> 10) % 1024 = 1 <<< (v2 : Nat) ∧
        w0 % 1024 = 1 <<< (v1 : Nat)) ∧
      (w1.testBit 30 = dots ∧ w1.testBit 31 = dots ∧
        w0.testBit 30 = dots ∧ w0.testBit 31 = dots) ∧
      (decodeSlot w1 20 = (v6 : Nat) ∧ decodeSlot w1 10 = (v5 : Nat) ∧
        decodeSlot w1 0 = (v4 : Nat) ∧
        decodeSlot w0 20 = (v3 : Nat) ∧ decodeSlot w0 10 = (v2 : Nat) ∧
        decodeSlot w0 0 = (v1 : Nat)) ∧
      (w1 < 2 ^ 32 ∧ w0 < 2 ^ 32) ∧
      showBytes ⟨v1, v2, v3, v4, v5, v6⟩ dots =
        some [(w1 >>> 24) % 256, (w1 >>> 16) % 256, (w1 >>> 8) % 256, w1 % 256,
              (w0 >>> 24) % 256, (w0 >>> 16) % 256, (w0 >>> 8) % 256, w0 % 256] := by
  obtain ⟨he1, hd1, hb1, hlt1⟩ := regVal_decode v6 v5 v4 dots
  obtain ⟨he0, hd0, hb0, hlt0⟩ := regVal_decode v3 v2 v1 dots
  have hw : showWords ⟨v1, v2, v3, v4, v5, v6⟩ dots =
      some (regVal v6 v5 v4 dots, regVal v3 v2 v1 dots) := by
    simp [showWords, digitCode_of_lt, regWord_eq_regVal]
  refine ⟨regVal v6 v5 v4 dots, regVal v3 v2 v1 dots, hw, he1, he0,
    ⟨hb1.1, hb1.2, hb0.1, hb0.2⟩, ⟨hd1.1, hd1.2.1, hd1.2.2, hd0.1, hd0.2.1, hd0.2.2⟩,
    ⟨hlt1, hlt0⟩, ?_⟩
  simp [showBytes, hw, bytesOf]

/-! ## NTP time source (NTP.h) -/

/-- `#define RETRIES 20` -/
def RETRIES : Nat := 20

/-- `#define NTP_PACKET_SIZE 48` -/
def NTP_PACKET_SIZE : Nat := 48

/-- `tmElements_t` of TimeLib: the broken-down date/time record. -/
structure TmElements where
  Second : Nat
  Minute : Nat
  Hour : Nat
  Wday : Nat
  Day : Nat
  Month : Nat
  Year : Nat
deriving DecidableEq

/-- The byte recombination in `_getTime`:
`secsSince1900 = buf[40]<<24 | buf[41]<<16 | buf[42]<<8 | buf[43]`
(an absent byte reads as 0, which cannot happen for a 48-byte packet). -/
def ntpExtract (pkt : List Nat) : Nat :=
  (((pkt.getD 40 0 <<< 24) ||| (pkt.getD 41 0 <<< 16)) ||| (pkt.getD 42 0 <<< 8)) |||
    pkt.getD 43 0

/-- `return secsSince1900 - 2208988800UL;` — 32-bit unsigned subtraction,
hence the wrap-around `% 2^32`. -/
def ntpDecode (pkt : List Nat) : Nat :=
  (ntpExtract pkt + (2 ^ 32 - 2208988800)) % 2 ^ 32

/-- One network attempt (`_getTime`): `udp.parsePacket()` must report exactly
`NTP_PACKET_SIZE` bytes, otherwise the attempt returns the zero sentinel.
`none` models an absent reply (`parsePacket() == 0`). -/
def ntpAttempt (reply : Option (List Nat)) : Nat :=
  match reply with
  | none => 0
  | some pkt => if pkt.length = NTP_PACKET_SIZE then ntpDecode pkt else 0

/-- Spec-side definition, written from the spec's words: "the big-endian
32-bit value of reply bytes 40–43". Used to compare `ntpDecode` against. -/
def bigEndian40 (pkt : List Nat) : Nat :=
  pkt.getD 40 0 * 2 ^ 24 + pkt.getD 41 0 * 2 ^ 16 + pkt.getD 42 0 * 2 ^ 8 +
    pkt.getD 43 0

/-- The polling loop of `_getRTCTime`: while the seconds field still equals
`prevSeconds`, read the RTC again (`polls k` is the k-th read) and give up as
soon as more than 3000 ms have passed (`elapsed k` is `millis() - start` at
the k-th iteration).  `fuel` bounds the loop for termination; `none` models
the `isRTCAvailable = false` exit. -/
def rtcWaitLoop (prevSeconds : Nat) (polls : Nat → TmElements) (elapsed : Nat → Nat) :
    Nat → Nat → TmElements → Option TmElements
  | 0, _, _ => none
  | fuel + 1, k, m =>
    if m.Second = prevSeconds then
      if 3000 < elapsed k then none
      else rtcWaitLoop prevSeconds polls elapsed fuel (k + 1) (polls k)
    else some m

/-- `_getRTCTime`: read the RTC (`m0`), wait for the seconds field to change,
and return `makeTime(m)` on success or the zero sentinel on timeout.
`makeT` abstracts TimeLib's `makeTime`. -/
def getRTCTimeFallback (makeT : TmElements → Nat) (m0 : TmElements)
    (polls : Nat → TmElements) (elapsed : Nat → Nat) (fuel : Nat) : Nat :=
  match rtcWaitLoop m0.Second polls elapsed fuel 0 m0 with
  | some m => makeT m
  | none => 0

/-- The retry loop of `getTime`: `net i` is the result of the i-th `_getTime`
call; on the first nonzero result the RTC is written (`breakT` abstracts
TimeLib's `breakTime`; the write log is the second component) and the result
returned at once; after `fuel` failures the RTC fallback value is returned
with no RTC write. -/
def getTimeAux (net : Nat → Nat) (breakT : Nat → TmElements) (rtcVal : Nat) :
    Nat → Nat → Nat × List TmElements
  | 0, _ => (rtcVal, [])
  | fuel + 1, i =>
    if net i ≠ 0 then (net i, [breakT (net i)])
    else getTimeAux net breakT rtcVal fuel (i + 1)

/-- `NTP::getTime()`: up to `RETRIES = 20` network attempts, then the RTC
fallback. -/
def getTime (net : Nat → Nat) (breakT : Nat → TmElements) (rtcVal : Nat) :
    Nat × List TmElements :=
  getTimeAux net breakT rtcVal RETRIES 0

/-- Modelled from the spec: the caller of `getTime` is TimeLib's
`setSyncProvider` machinery (an external library, outside this repository);
per the spec the caller "retains the prior WallClock unchanged" when the
provider returns the zero sentinel, and adopts the provided time otherwise. -/
def applySync (prev provided : Nat) : Nat :=
  if provided = 0 then prev else provided

/-! ### Bit-packing helper lemmas -/

lemma mul_pow_lor_mul_pow (x y n : Nat) :
    (x * 2 ^ n) ||| (y * 2 ^ n) = (x ||| y) * 2 ^ n := by
  apply Nat.eq_of_testBit_eq
  intro i
  simp only [Nat.testBit_or, Nat.mul_comm _ (2 ^ n), Nat.testBit_mul_pow_two]
  by_cases h : n ≤ i <;> simp [h]

lemma lor_low (x b n : Nat) (hb : b < 2 ^ n) :
    (x * 2 ^ n) ||| b = x * 2 ^ n + b := by
  rw [Nat.mul_comm, ← Nat.mul_add_lt_is_or hb, Nat.mul_comm]

lemma byte_chain (b0 b1 b2 b3 : Nat) (h1 : b1 < 256) (h2 : b2 < 256)
    (h3 : b3 < 256) :
    (((b0 <<< 24) ||| (b1 <<< 16)) ||| (b2 <<< 8)) ||| b3 =
      b0 * 2 ^ 24 + b1 * 2 ^ 16 + b2 * 2 ^ 8 + b3 := by
  have h1p : b1 < 2 ^ 8 := h1
  have h2p : b2 < 2 ^ 8 := h2
  have h3p : b3 < 2 ^ 8 := h3
  have eA : (b0 <<< 24) ||| (b1 <<< 16) = (b0 * 2 ^ 8 + b1) * 2 ^ 16 := by
    rw [Nat.shiftLeft_eq, Nat.shiftLeft_eq,
      show b0 * 2 ^ 24 = (b0 * 2 ^ 8) * 2 ^ 16 by ring,
      mul_pow_lor_mul_pow, lor_low b0 b1 8 h1p]
  have eB : ((b0 <<< 24) ||| (b1 <<< 16)) ||| (b2 <<< 8) =
      ((b0 * 2 ^ 8 + b1) * 2 ^ 8 + b2) * 2 ^ 8 := by
    rw [eA, Nat.shiftLeft_eq,
      show (b0 * 2 ^ 8 + b1) * 2 ^ 16 = ((b0 * 2 ^ 8 + b1) * 2 ^ 8) * 2 ^ 8 by ring,
      mul_pow_lor_mul_pow, lor_low _ b2 8 h2p]
  calc (((b0 <<< 24) ||| (b1 <<< 16)) ||| (b2 <<< 8)) ||| b3
      = (((b0 * 2 ^ 8 + b1) * 2 ^ 8 + b2) * 2 ^ 8) ||| b3 := by rw [eB]
    _ = ((b0 * 2 ^ 8 + b1) * 2 ^ 8 + b2) * 2 ^ 8 + b3 := lor_low _ b3 8 h3p
    _ = b0 * 2 ^ 24 + b1 * 2 ^ 16 + b2 * 2 ^ 8 + b3 := by ring

lemma getD_byte_lt (pkt : List Nat) (hbytes : ∀ b ∈ pkt, b < 256) (i : Nat)
    (hi : i < pkt.length) : pkt.getD i 0 < 256 := by
  rw [List.getD_eq_getElem?_getD, List.getElem?_eq_getElem hi]
  exact hbytes _ (List.getElem_mem hi)

lemma bigEndian40_lt (pkt : List Nat) (hlen : pkt.length = 48)
    (hbytes : ∀ b ∈ pkt, b < 256) : bigEndian40 pkt < 2 ^ 32 := by
  have h0 := getD_byte_lt pkt hbytes 40 (by omega)
  have h1 := getD_byte_lt pkt hbytes 41 (by omega)
  have h2 := getD_byte_lt pkt hbytes 42 (by omega)
  have h3 := getD_byte_lt pkt hbytes 43 (by omega)
  unfold bigEndian40
  simp only [List.getD_eq_getElem?_getD] at h0 h1 h2 h3 ⊢
  norm_num
  omega

lemma ntpExtract_eq_bigEndian40 (pkt : List Nat) (hlen : pkt.length = 48)
    (hbytes : ∀ b ∈ pkt, b < 256) : ntpExtract pkt = bigEndian40 pkt := by
  have h1 := getD_byte_lt pkt hbytes 41 (by omega)
  have h2 := getD_byte_lt pkt hbytes 42 (by omega)
  have h3 := getD_byte_lt pkt hbytes 43 (by omega)
  unfold ntpExtract bigEndian40
  exact byte_chain _ _ _ _ h1 h2 h3

/-- C5: for every 48-byte network reply (all entries bytes), the decoded time
equals the big-endian 32-bit value of reply bytes 40–43 minus the constant
2,208,988,800 (the subtraction is 32-bit unsigned arithmetic in the source,
so the hypothesis restricts to the non-wrapping domain the claim speaks of).
Its concrete instance — bytes 40–43 = {0xE4,0,0,0} decoding to 1,616,216,448 —
is checked in the witness theorem. -/
theorem ntp_decode_big_endian (pkt : List Nat) (hlen : pkt.length = 48)
    (hbytes : ∀ b ∈ pkt, b < 256)
    (hge : 2208988800 ≤ bigEndian40 pkt) :
    ntpAttempt (some pkt) = bigEndian40 pkt - 2208988800 := by
  have hlt := bigEndian40_lt pkt hlen hbytes
  have he := ntpExtract_eq_bigEndian40 pkt hlen hbytes
  have : ntpAttempt (some pkt) = ntpDecode pkt := by
    simp [ntpAttempt, hlen, NTP_PACKET_SIZE]
  rw [this, ntpDecode, he]
  norm_num at hlt ⊢
  omega

/-- A 48-byte reply whose bytes 40–43 are {0xE4, 0x00, 0x00, 0x00}. -/
def samplePkt : List Nat := List.replicate 40 0 ++ [0xE4, 0, 0, 0, 0, 0, 0, 0]

/-- Witness for `ntp_decode_big_endian` at the concrete reply from the claim. -/
theorem ntp_decode_big_endian_witness :
    bigEndian40 samplePkt = 3825205248 ∧
    ntpAttempt (some samplePkt) = 1616216448 := by
  have h := ntp_decode_big_endian samplePkt (by decide) (by decide) (by decide)
  exact ⟨by decide, by rw [h]; decide⟩

/-! ### Retry-loop helper lemmas -/

lemma getTimeAux_congr (net net' : Nat → Nat) (bt : Nat → TmElements) (r : Nat) :
    ∀ fuel i, (∀ j, i ≤ j → j < i + fuel → net j = net' j) →
      getTimeAux net bt r fuel i = getTimeAux net' bt r fuel i := by
  intro fuel
  induction fuel with
  | zero => intro i _; rfl
  | succ f ih =>
    intro i h
    have hi : net i = net' i := h i (by omega) (by omega)
    simp only [getTimeAux, hi]
    by_cases hz : net' i = 0
    · simp only [hz, ne_eq, not_true_eq_false, if_false]
      exact ih (i + 1) (fun j hj1 hj2 => h j (by omega) (by omega))
    · simp [hz]

lemma getTimeAux_all_zero (net : Nat → Nat) (bt : Nat → TmElements) (r : Nat) :
    ∀ fuel i, (∀ j, i ≤ j → j < i + fuel → net j = 0) →
      getTimeAux net bt r fuel i = (r, []) := by
  intro fuel
  induction fuel with
  | zero => intro i _; rfl
  | succ f ih =>
    intro i h
    have hi : net i = 0 := h i (by omega) (by omega)
    simp only [getTimeAux, hi, ne_eq, not_true_eq_false, if_false]
    exact ih (i + 1) (fun j hj1 hj2 => h j (by omega) (by omega))

lemma getTimeAux_first_success (net : Nat → Nat) (bt : Nat → TmElements) (r : Nat) :
    ∀ k fuel i, k < fuel → (∀ j, i ≤ j → j < i + k → net j = 0) →
      net (i + k) ≠ 0 →
      getTimeAux net bt r fuel i = (net (i + k), [bt (net (i + k))]) := by
  intro k
  induction k with
  | zero =>
    intro fuel i hk _ hnz
    match fuel, hk with
    | f + 1, _ =>
      simp only [Nat.add_zero] at hnz
      simp only [getTimeAux, hnz, if_true, Nat.add_zero]
      simp [hnz]
  | succ n ih =>
    intro fuel i hk hzero hnz
    match fuel, hk with
    | f + 1, hk =>
      have hi : net i = 0 := hzero i (by omega) (by omega)
      simp only [getTimeAux, hi, ne_eq, not_true_eq_false, if_false]
      have := ih f (i + 1) (by omega)
        (fun j hj1 hj2 => hzero j (by omega) (by omega))
        (by rw [show i + 1 + n = i + (n + 1) by omega]; exact hnz)
      rw [this, show i + 1 + n = i + (n + 1) by omega]

lemma rtcWaitLoop_stall_none (prev : Nat) (polls : Nat → TmElements)
    (elapsed : Nat → Nat) (hsec : ∀ k, (polls k).Second = prev) :
    ∀ fuel k m, m.Second = prev →
      (∃ j, k ≤ j ∧ j < k + fuel ∧ 3000 < elapsed j) →
      rtcWaitLoop prev polls elapsed fuel k m = none := by
  intro fuel
  induction fuel with
  | zero =>
    intro k m _ hex
    obtain ⟨j, h1, h2, _⟩ := hex
    omega
  | succ f ih =>
    intro k m hm hex
    obtain ⟨j, hj1, hj2, hj3⟩ := hex
    simp only [rtcWaitLoop, hm, if_true]
    by_cases he : 3000 < elapsed k
    · simp [he]
    · have hjk : j ≠ k := fun hc => he (hc ▸ hj3)
      simp only [he, if_false]
      exact ih (k + 1) (polls k) (hsec k) ⟨j, by omega, by omega, hj3⟩

/-! ## Claim C3 / C8 theorems -/

/-- C3: `getTime` attempts the network query at most 20 times (its result is
unchanged under any change of the attempts from index 20 on); an absent or
wrong-size reply is a failed attempt yielding the zero sentinel; after 20
failures the RTC fallback value is consulted; and when the RTC seconds field
never changes while the 3-second bound elapses, the fallback — and hence the
whole call — returns the zero sentinel with no RTC write, so the (spec-
modelled) TimeLib caller retains the prior wall clock unchanged. -/
theorem getTime_retry_fallback_zero
    (net net' : Nat → Nat) (bt : Nat → TmElements) (mk : TmElements → Nat)
    (pkt : List Nat) (m0 : TmElements) (polls : Nat → TmElements)
    (elapsed : Nat → Nat) (K fuel prev : Nat)
    (hagree : ∀ i, i < RETRIES → net i = net' i)
    (hfail : ∀ i, i < RETRIES → net i = 0)
    (hlen : pkt.length ≠ 48)
    (hsec : ∀ k, (polls k).Second = m0.Second)
    (hK : 3000 < elapsed K) (hKf : K < fuel) :
    ntpAttempt none = 0 ∧
    ntpAttempt (some pkt) = 0 ∧
    getTime net bt (getRTCTimeFallback mk m0 polls elapsed fuel) =
      getTime net' bt (getRTCTimeFallback mk m0 polls elapsed fuel) ∧
    getRTCTimeFallback mk m0 polls elapsed fuel = 0 ∧
    getTime net bt (getRTCTimeFallback mk m0 polls elapsed fuel) = (0, []) ∧
    applySync prev 0 = prev := by
  have hrtc : getRTCTimeFallback mk m0 polls elapsed fuel = 0 := by
    unfold getRTCTimeFallback
    rw [rtcWaitLoop_stall_none m0.Second polls elapsed hsec fuel 0 m0 rfl
      ⟨K, by omega, by omega, hK⟩]
  refine ⟨rfl, ?_, ?_, hrtc, ?_, by simp [applySync]⟩
  · simp [ntpAttempt, NTP_PACKET_SIZE, hlen]
  · exact getTimeAux_congr net net' bt _ RETRIES 0
      (fun j hj1 hj2 => hagree j (by omega))
  · rw [getTime, getTimeAux_all_zero net bt _ RETRIES 0
      (fun j hj1 hj2 => hfail j (by omega)), hrtc]

/-- Witness for `getTime_retry_fallback_zero`: all 20 attempts fail, the RTC
seconds field never changes and 4000 ms have elapsed at the first poll. -/
theorem getTime_retry_fallback_zero_witness :
    getTime (fun _ => 0) (fun _ => ⟨0, 0, 0, 0, 0, 0, 0⟩)
        (getRTCTimeFallback (fun _ => 0) ⟨0, 0, 0, 0, 0, 0, 0⟩
          (fun _ => ⟨0, 0, 0, 0, 0, 0, 0⟩) (fun _ => 4000) 1) = (0, []) ∧
    getRTCTimeFallback (fun _ => 0) ⟨0, 0, 0, 0, 0, 0, 0⟩
        (fun _ => ⟨0, 0, 0, 0, 0, 0, 0⟩) (fun _ => 4000) 1 = 0 ∧
    applySync 12345 0 = 12345 := by
  have h := getTime_retry_fallback_zero (fun _ => 0) (fun _ => 0)
    (fun _ => ⟨0, 0, 0, 0, 0, 0, 0⟩) (fun _ => 0) []
    ⟨0, 0, 0, 0, 0, 0, 0⟩ (fun _ => ⟨0, 0, 0, 0, 0, 0, 0⟩) (fun _ => 4000)
    0 1 12345 (fun _ _ => rfl) (fun _ _ => rfl) (by decide)
    (fun _ => rfl) (by decide) (by decide)
  exact ⟨h.2.2.2.2.1, h.2.2.2.1, h.2.2.2.2.2⟩

/-- C8: whenever a network attempt returns a nonzero result, `getTime`
writes exactly one broken-down date/time to the RTC (the write log is the
singleton of `breakTime` of that result) and returns that result at once —
the result does not depend on any later attempt — while failed attempts
write nothing to the RTC (an all-failing run has an empty write log). -/
theorem getTime_success_writes_rtc_once
    (net net2 net0 : Nat → Nat) (bt : Nat → TmElements) (r k : Nat)
    (hk : k < RETRIES)
    (hbefore : ∀ i, i < k → net i = 0)
    (hsucc : net k ≠ 0)
    (hagree : ∀ i, i ≤ k → net2 i = net i)
    (hzero : ∀ i, i < RETRIES → net0 i = 0) :
    getTime net bt r = (net k, [bt (net k)]) ∧
    getTime net2 bt r = (net k, [bt (net k)]) ∧
    (getTime net0 bt r).2 = [] := by
  have h1 : getTime net bt r = (net k, [bt (net k)]) := by
    have := getTimeAux_first_success net bt r k RETRIES 0 hk
      (fun j hj1 hj2 => hbefore j (by omega)) (by simpa using hsucc)
    simpa [getTime] using this
  have h2 : getTime net2 bt r = (net k, [bt (net k)]) := by
    have := getTimeAux_first_success net2 bt r k RETRIES 0 hk
      (fun j hj1 hj2 => by rw [hagree j (by omega)]; exact hbefore j (by omega))
      (by simpa [hagree k (le_refl k)] using hsucc)
    simpa [getTime, hagree k (le_refl k)] using this
  refine ⟨h1, h2, ?_⟩
  rw [getTime, getTimeAux_all_zero net0 bt r RETRIES 0
    (fun j hj1 hj2 => hzero j (by omega))]

/-- Witness for `getTime_success_writes_rtc_once`: the third attempt
succeeds with 1,616,216,448; a modified run that only agrees up to index 2
returns the same answer; the all-failing run writes nothing. -/
theorem getTime_success_writes_rtc_once_witness :
    getTime (fun i => if i = 2 then 1616216448 else 0)
        (fun t => ⟨t % 60, 0, 0, 0, 0, 0, 0⟩) 7 =
      (1616216448, [⟨1616216448 % 60, 0, 0, 0, 0, 0, 0⟩]) ∧
    getTime (fun i => if i ≤ 2 then (if i = 2 then 1616216448 else 0) else 999)
        (fun t => ⟨t % 60, 0, 0, 0, 0, 0, 0⟩) 7 =
      (1616216448, [⟨1616216448 % 60, 0, 0, 0, 0, 0, 0⟩]) ∧
    (getTime (fun _ => 0) (fun t => ⟨t % 60, 0, 0, 0, 0, 0, 0⟩) 7).2 = [] := by
  have h := getTime_success_writes_rtc_once
    (fun i => if i = 2 then 1616216448 else 0)
    (fun i => if i ≤ 2 then (if i = 2 then 1616216448 else 0) else 999)
    (fun _ => 0)
    (fun t => ⟨t % 60, 0, 0, 0, 0, 0, 0⟩) 7 2
    (by decide) (by decide) (by decide) (by decide) (fun _ _ => rfl)
  exact ⟨by simpa using h.1, by simpa using h.2.1, h.2.2⟩

/-! ## LED control (LEDControl.h) -/

/-- `RGB24` — a 24-bit colour triple. -/
structure RGB24 where
  red : Nat
  green : Nat
  blue : Nat
deriving DecidableEq

/-- `RGB24 black = {0, 0, 0};` -/
def black : RGB24 := ⟨0, 0, 0⟩

/-- `RGB24 blue = {0, 0, 127};` -/
def blueC : RGB24 := ⟨0, 0, 127⟩

/-- `RGB24 red = {127, 0, 0};` -/
def redC : RGB24 := ⟨127, 0, 0⟩

/-- `colorWheel` of LEDControl.h: value 0–255 to an RGB colour along the
red–green–blue wheel (all arithmetic stays within a byte). -/
def colorWheel (wheelPos : Nat) : RGB24 :=
  let w := wheelPos % 256
  if w < 85 then ⟨255 - w * 3, w * 3, 0⟩
  else if w < 170 then ⟨0, 255 - (w - 85) * 3, (w - 85) * 3⟩
  else ⟨(w - 170) * 3, 0, 255 - (w - 170) * 3⟩

/-! ## Display scheduler (`updateDisplay` of the main sketch) -/

/-- `#define CLOCK_ON_HOUR 07` -/
def CLOCK_ON_HOUR : Nat := 7

/-- `#define CLOCK_OFF_HOUR 23` -/
def CLOCK_OFF_HOUR : Nat := 23

/-- `#define SUPPRESS_LEADING_ZEROS true` -/
def SUPPRESS_LEADING_ZEROS : Bool := true

/-- `#define HOUR_FORMAT_12 true` -/
def HOUR_FORMAT_12 : Bool := true

/-- The four mutually exclusive display programs of the dispatch chain. -/
inductive DisplayProgram
  | antiPoisoning
  | rainbowSweep
  | showDate
  | showTime
deriving DecidableEq

/-- One shield call issued by `updateDisplay`, in program order.
`setLEDHourHue h` abstracts `setLEDColor(colorWheel(colorInc * now_hour))`,
whose hue factor `colorInc` is computed in floating point in the source;
`runAntiPoisoning` abstracts the shield's `doAntiPoisoning()` sweep. -/
inductive ShieldCmd
  | hvEnable (state : Bool)
  | dotsEnable (state : Bool)
  | setNX (slot : Nat) (d : Nat)
  | showFrame
  | setLED (c : RGB24)
  | setLEDHourHue (h : Nat)
  | runAntiPoisoning
  | delayMs (ms : Nat)
deriving DecidableEq

/-- The local-time fields read from `TZ.toLocal(now())` during one tick.
`hr12` is TimeLib's `hourFormat12(localTime)`. -/
structure LocalTime where
  hr : Nat
  hr12 : Nat
  minute : Nat
  second : Nat
  month : Nat
  day : Nat
  yr : Nat
deriving DecidableEq

/-- The mutable scheduler state: `int previousMinute`, `boolean dotToggle`,
`boolean clockOn`. -/
structure ClockState where
  previousMinute : Nat
  dotToggle : Bool
  clockOn : Bool
deriving DecidableEq

/-- `int previousMinute = 0; boolean dotToggle = false; boolean clockOn = true;` -/
def initialClockState : ClockState := ⟨0, false, true⟩

/-- The tens-of-`v` rendering used for the NX1/NX3/NX5 digits:
`if (v >= 10) set(v / 10) else if (SUPPRESS) set(BLANK) else set(0)`. -/
def tensDigit (v : Nat) (suppress : Bool) : Nat :=
  if 10 ≤ v then v / 10 else if suppress then BLANK_DIGIT else 0

/-- The six slot values produced by the time branch of `updateDisplay`
(NX1 … NX6): hour tens (suppressible), hour units, minute tens, minute
units, second tens, second units. -/
def timeSlots (h m s : Nat) (suppress : Bool) : List Nat :=
  [tensDigit h suppress, h % 10, m / 10, m % 10, s / 10, s % 10]

/-- The six slot values produced by the date branch of `updateDisplay`
(NX1 … NX6): month tens (suppressible), month units, day tens
(suppressible), day units, year tens (suppressible), year units —
`y` is `year(localTime) - 2000`. -/
def dateSlots (mon d y : Nat) (suppress : Bool) : List Nat :=
  [tensDigit mon suppress, mon % 10, tensDigit d suppress, d % 10,
    tensDigit y suppress, y % 10]

/-- The `setNXkDigit` calls for a list of slot values (NX1 first). -/
def setSlotCmds (xs : List Nat) : List ShieldCmd :=
  xs.enum.map (fun p => ShieldCmd.setNX (p.1 + 1) p.2)

/-- Blanking all six tubes (`setNXkDigit(BLANK_DIGIT)` for k = 1..6). -/
def blankAllCmds : List ShieldCmd := setSlotCmds (List.replicate 6 BLANK_DIGIT)

/-- The rainbow sweep: 4 cycles of 16 hue steps (`cycle = 0, 16, …, 240`),
each held 400 ms. -/
def rainbowCmds : List ShieldCmd :=
  (((List.range 4).map (fun _ =>
    (((List.range 16).map (fun c =>
      [ShieldCmd.setLED (colorWheel (c * 16)), ShieldCmd.delayMs 400])).flatten))).flatten)

/-- The ordered shutdown sequence of the On→Off transition: high voltage
off, dots off, blank all six digits, push the frame, LEDs to black. -/
def shutdownCmds : List ShieldCmd :=
  [ShieldCmd.hvEnable false, ShieldCmd.dotsEnable false] ++ blankAllCmds ++
    [ShieldCmd.showFrame, ShieldCmd.setLED black]

/-- The dispatch chain of `updateDisplay` (lines 358–465), in source order:
anti-poisoning on a newly changed minute 0; else rainbow on a newly changed
nonzero minute divisible by 15; else date on a newly changed nonzero minute
divisible by 10; else time. -/
def dispatchProgram (prev m : Nat) : DisplayProgram :=
  if m ≠ prev ∧ m = 0 then .antiPoisoning
  else if m ≠ prev ∧ m ≠ 0 ∧ m % 15 = 0 then .rainbowSweep
  else if m ≠ prev ∧ m ≠ 0 ∧ m % 10 = 0 then .showDate
  else .showTime

/-- The result of one `updateDisplay` invocation: the next scheduler state,
the display program dispatched (`none` while the clock is off), and the
ordered shield calls issued. -/
structure TickResult where
  state : ClockState
  program : Option DisplayProgram
  cmds : List ShieldCmd
deriving DecidableEq

/-- One `updateDisplay` invocation.  Inside the on-window the clock is
switched on (emitting `hvEnable(true)` only on the Off→On edge) and exactly
one display program runs; outside the window the On→Off edge performs the
ordered shutdown once, after which ticks do nothing. -/
def tick (s : ClockState) (t : LocalTime) : TickResult :=
  if CLOCK_ON_HOUR ≤ t.hr ∧ t.hr < CLOCK_OFF_HOUR then
    let s1 : ClockState := { s with clockOn := true }
    let onCmds : List ShieldCmd := if s.clockOn then [] else [.hvEnable true]
    match dispatchProgram s.previousMinute t.minute with
    | .antiPoisoning =>
      { state := { s1 with previousMinute := t.minute },
        program := some .antiPoisoning,
        cmds := onCmds ++ [.setLED redC, .runAntiPoisoning] }
    | .rainbowSweep =>
      { state := { s1 with previousMinute := t.minute },
        program := some .rainbowSweep,
        cmds := onCmds ++ [.dotsEnable false] ++ blankAllCmds ++
          [.showFrame] ++ rainbowCmds }
    | .showDate =>
      { state := { s1 with previousMinute := t.minute },
        program := some .showDate,
        cmds := onCmds ++ [.dotsEnable false, .setLED blueC, .dotsEnable true] ++
          setSlotCmds (dateSlots t.month t.day (t.yr - 2000)
            SUPPRESS_LEADING_ZEROS) ++
          [.showFrame, .delayMs 10000] }
    | .showTime =>
      let nowHour := if HOUR_FORMAT_12 then t.hr12 else t.hr
      { state := { s1 with dotToggle := ¬s1.dotToggle },
        program := some .showTime,
        cmds := onCmds ++ [.dotsEnable s1.dotToggle, .setLEDHourHue nowHour] ++
          setSlotCmds (timeSlots nowHour t.minute t.second
            SUPPRESS_LEADING_ZEROS) ++
          [.showFrame] }
  else if s.clockOn then
    { state := { s with clockOn := false }, program := none,
      cmds := shutdownCmds }
  else
    { state := s, program := none, cmds := [] }

/-- Iterated ticks: state after feeding the first `n` of the tick inputs
`ts 0, ts 1, …` to the scheduler. -/
def tickRun (s : ClockState) (ts : Nat → LocalTime) : Nat → ClockState
  | 0 => s
  | n + 1 => (tick (tickRun s ts n) (ts n)).state

/-! ### Scheduler helper lemmas -/

lemma dispatchProgram_self (m : Nat) : dispatchProgram m m = .showTime := by
  simp [dispatchProgram]

lemma dispatchProgram_anti_iff (prev m : Nat) :
    dispatchProgram prev m = .antiPoisoning ↔ (m ≠ prev ∧ m = 0) := by
  unfold dispatchProgram
  split_ifs with h1 h2 h3 <;> simp_all
  omega

lemma dispatchProgram_rainbow_iff (prev m : Nat) :
    dispatchProgram prev m = .rainbowSweep ↔ (m ≠ prev ∧ m ≠ 0 ∧ m % 15 = 0) := by
  unfold dispatchProgram
  split_ifs with h1 h2 h3 <;> simp_all

lemma dispatchProgram_date_iff (prev m : Nat) :
    dispatchProgram prev m = .showDate ↔
      (m ≠ prev ∧ m ≠ 0 ∧ m % 15 ≠ 0 ∧ m % 10 = 0) := by
  unfold dispatchProgram
  split_ifs with h1 h2 h3 <;> simp_all

lemma dispatchProgram_time_iff (prev m : Nat) :
    dispatchProgram prev m = .showTime ↔
      (m = prev ∨ (m ≠ 0 ∧ m % 15 ≠ 0 ∧ m % 10 ≠ 0)) := by
  unfold dispatchProgram
  split_ifs with h1 h2 h3 <;> simp_all <;> omega

lemma tick_program_on (s : ClockState) (t : LocalTime)
    (hw : CLOCK_ON_HOUR ≤ t.hr ∧ t.hr < CLOCK_OFF_HOUR) :
    (tick s t).program = some (dispatchProgram s.previousMinute t.minute) := by
  rw [tick, if_pos hw]
  cases h : dispatchProgram s.previousMinute t.minute <;> simp [h]

lemma tick_prev_on (s : ClockState) (t : LocalTime)
    (hw : CLOCK_ON_HOUR ≤ t.hr ∧ t.hr < CLOCK_OFF_HOUR) :
    (tick s t).state.previousMinute =
      (if dispatchProgram s.previousMinute t.minute = .showTime
        then s.previousMinute else t.minute) := by
  rw [tick, if_pos hw]
  cases h : dispatchProgram s.previousMinute t.minute <;> simp [h]

lemma tick_prev_cases (s : ClockState) (t : LocalTime) :
    (tick s t).state.previousMinute = s.previousMinute ∨
    (tick s t).state.previousMinute = t.minute := by
  unfold tick
  by_cases hw : CLOCK_ON_HOUR ≤ t.hr ∧ t.hr < CLOCK_OFF_HOUR
  · rw [if_pos hw]
    cases h : dispatchProgram s.previousMinute t.minute <;> simp [h]
  · rw [if_neg hw]
    by_cases hc : s.clockOn <;> simp [hc]

lemma tickRun_prev_const (s : ClockState) (ts : Nat → LocalTime) (c : Nat)
    (hts : ∀ i, (ts i).minute = c) (hs : s.previousMinute = c) :
    ∀ n, (tickRun s ts n).previousMinute = c := by
  intro n
  induction n with
  | zero => exact hs
  | succ k ih =>
    rcases tick_prev_cases (tickRun s ts k) (ts k) with h | h
    · rw [tickRun, h, ih]
    · rw [tickRun, h, hts k]

/-! ## Claim C2 / C6 / C7 / C10 theorems -/

/-- C2: on every tick inside the on-window exactly one program is
dispatched, in strict priority order: a newly changed minute 0 selects the
anti-poisoning sweep; else a newly changed nonzero minute divisible by 15
selects the rainbow sweep; else a newly changed nonzero minute divisible by
10 selects the date display; every other tick shows the time.  The
last-handled-minute cell is overwritten exactly when one of the first three
cases fires, so after any such firing every later tick of the same minute —
any number of ticks later — selects the time display (never a re-trigger). -/
theorem updateDisplay_dispatch_priority_once (s : ClockState) (t : LocalTime)
    (ts : Nat → LocalTime) (n : Nat)
    (hw : CLOCK_ON_HOUR ≤ t.hr ∧ t.hr < CLOCK_OFF_HOUR)
    (hts : ∀ i, (ts i).minute = t.minute ∧
      (CLOCK_ON_HOUR ≤ (ts i).hr ∧ (ts i).hr < CLOCK_OFF_HOUR)) :
    ((tick s t).program = some .antiPoisoning ↔
      (t.minute ≠ s.previousMinute ∧ t.minute = 0)) ∧
    ((tick s t).program = some .rainbowSweep ↔
      (t.minute ≠ s.previousMinute ∧ t.minute ≠ 0 ∧ t.minute % 15 = 0)) ∧
    ((tick s t).program = some .showDate ↔
      (t.minute ≠ s.previousMinute ∧ t.minute ≠ 0 ∧ t.minute % 15 ≠ 0 ∧
        t.minute % 10 = 0)) ∧
    ((tick s t).program = some .showTime ↔
      (t.minute = s.previousMinute ∨
        (t.minute ≠ 0 ∧ t.minute % 15 ≠ 0 ∧ t.minute % 10 ≠ 0))) ∧
    ((tick s t).program ≠ some .showTime →
      (tick s t).state.previousMinute = t.minute) ∧
    ((tick s t).program = some .showTime →
      (tick s t).state.previousMinute = s.previousMinute) ∧
    ((tick s t).program ≠ some .showTime →
      (tick (tickRun (tick s t).state ts n) (ts n)).program = some .showTime) := by
  have hp := tick_program_on s t hw
  have hprev := tick_prev_on s t hw
  refine ⟨?_, ?_, ?_, ?_, ?_, ?_, ?_⟩
  · rw [hp, Option.some_inj, dispatchProgram_anti_iff]
  · rw [hp, Option.some_inj, dispatchProgram_rainbow_iff]
  · rw [hp, Option.some_inj, dispatchProgram_date_iff]
  · rw [hp, Option.some_inj, dispatchProgram_time_iff]
  · intro hne
    rw [hp, Ne, Option.some_inj] at hne
    rw [hprev, if_neg hne]
  · intro heq
    rw [hp, Option.some_inj] at heq
    rw [hprev, if_pos heq]
  · intro hne
    rw [hp, Ne, Option.some_inj] at hne
    have hsprev : (tick s t).state.previousMinute = t.minute := by
      rw [hprev, if_neg hne]
    have hrun : ∀ k, (tickRun (tick s t).state ts k).previousMinute = t.minute :=
      tickRun_prev_const _ ts t.minute (fun i => (hts i).1) hsprev
    rw [tick_program_on _ (ts n) (hts n).2, hrun n, (hts n).1,
      dispatchProgram_self]

/-- Witness for `updateDisplay_dispatch_priority_once`: minute newly changed
to 0 fires the anti-poisoning sweep, and three repeated ticks of the same
minute later the scheduler is back to showing the time. -/
theorem updateDisplay_dispatch_priority_once_witness :
    (tick ⟨5, false, true⟩ ⟨10, 10, 0, 0, 1, 1, 2021⟩).program =
      some .antiPoisoning ∧
    (tick (tickRun (tick ⟨5, false, true⟩ ⟨10, 10, 0, 0, 1, 1, 2021⟩).state
        (fun _ => ⟨10, 10, 0, 0, 1, 1, 2021⟩) 3)
      ⟨10, 10, 0, 0, 1, 1, 2021⟩).program = some .showTime := by
  have h := updateDisplay_dispatch_priority_once ⟨5, false, true⟩
    ⟨10, 10, 0, 0, 1, 1, 2021⟩ (fun _ => ⟨10, 10, 0, 0, 1, 1, 2021⟩) 3
    (by decide) (fun _ => ⟨rfl, by norm_num [CLOCK_ON_HOUR, CLOCK_OFF_HOUR]⟩)
  have hfire := h.1.mpr (by decide)
  exact ⟨hfire, h.2.2.2.2.2.2 (by rw [hfire]; decide)⟩

/-- C6: after a tick the power state is On exactly when the local hour lies
in `[CLOCK_ON_HOUR, CLOCK_OFF_HOUR)`; when the hour leaves the window while
the clock is on, the On→Off transition performs the ordered shutdown —
high voltage off, indicators off, all six digit slots blanked, frame pushed,
accent colour black — exactly once, and while off every further tick
performs no rendering work at all. -/
theorem updateDisplay_power_window_shutdown (s : ClockState)
    (t1 t2 : LocalTime)
    (hw1 : CLOCK_ON_HOUR ≤ t1.hr ∧ t1.hr < CLOCK_OFF_HOUR)
    (hw2 : ¬(CLOCK_ON_HOUR ≤ t2.hr ∧ t2.hr < CLOCK_OFF_HOUR)) :
    (tick s t1).state.clockOn = true ∧
    (tick s t2).state.clockOn = false ∧
    (s.clockOn = true →
      (tick s t2).cmds =
        [ShieldCmd.hvEnable false, ShieldCmd.dotsEnable false,
          ShieldCmd.setNX 1 BLANK_DIGIT, ShieldCmd.setNX 2 BLANK_DIGIT,
          ShieldCmd.setNX 3 BLANK_DIGIT, ShieldCmd.setNX 4 BLANK_DIGIT,
          ShieldCmd.setNX 5 BLANK_DIGIT, ShieldCmd.setNX 6 BLANK_DIGIT,
          ShieldCmd.showFrame, ShieldCmd.setLED black] ∧
      (tick s t2).program = none) ∧
    (s.clockOn = false →
      (tick s t2).state = s ∧ (tick s t2).program = none ∧
        (tick s t2).cmds = []) ∧
    ((tick (tick s t2).state t2).cmds = [] ∧
      (tick (tick s t2).state t2).state = (tick s t2).state) := by
  have hoff : (tick s t2).state.clockOn = false := by
    unfold tick
    rw [if_neg hw2]
    by_cases hc : s.clockOn <;> simp [hc]
  refine ⟨?_, hoff, ?_, ?_, ?_⟩
  · rw [tick, if_pos hw1]
    cases h : dispatchProgram s.previousMinute t1.minute <;> simp [h]
  · intro hc
    constructor
    · rw [tick, if_neg hw2, if_pos hc]
      show shutdownCmds = _
      decide
    · rw [tick, if_neg hw2, if_pos hc]
  · intro hc
    rw [tick, if_neg hw2]
    simp [hc]
  · have h2 : tick (tick s t2).state t2 =
        ⟨(tick s t2).state, none, []⟩ := by
      rw [tick, if_neg hw2]
      simp [hoff]
    rw [h2]
    exact ⟨rfl, rfl⟩

/-- Witness for `updateDisplay_power_window_shutdown`: the local hour moves
from 22 (on) to 23 (off-hour), firing the shutdown exactly once. -/
theorem updateDisplay_power_window_shutdown_witness :
    (tick ⟨30, false, true⟩ ⟨22, 10, 30, 0, 1, 1, 2021⟩).state.clockOn = true ∧
    (tick ⟨30, false, true⟩ ⟨23, 11, 30, 0, 1, 1, 2021⟩).cmds =
      [ShieldCmd.hvEnable false, ShieldCmd.dotsEnable false,
        ShieldCmd.setNX 1 BLANK_DIGIT, ShieldCmd.setNX 2 BLANK_DIGIT,
        ShieldCmd.setNX 3 BLANK_DIGIT, ShieldCmd.setNX 4 BLANK_DIGIT,
        ShieldCmd.setNX 5 BLANK_DIGIT, ShieldCmd.setNX 6 BLANK_DIGIT,
        ShieldCmd.showFrame, ShieldCmd.setLED black] ∧
    (tick (tick ⟨30, false, true⟩ ⟨23, 11, 30, 0, 1, 1, 2021⟩).state
      ⟨23, 11, 30, 0, 1, 1, 2021⟩).cmds = [] := by
  have h := updateDisplay_power_window_shutdown ⟨30, false, true⟩
    ⟨22, 10, 30, 0, 1, 1, 2021⟩ ⟨23, 11, 30, 0, 1, 1, 2021⟩
    (by decide) (by decide)
  exact ⟨h.1, (h.2.2.1 rfl).1, h.2.2.2.2.1⟩

/-- C10: `previousMinute` is initialised to 0, so on a first tick whose
local minute is already 0 the "minute changed" guard fails and the
scheduler shows the time instead of firing the anti-poisoning sweep. -/
theorem previousMinute_init_first_tick_showTime (t : LocalTime)
    (hm : t.minute = 0)
    (hw : CLOCK_ON_HOUR ≤ t.hr ∧ t.hr < CLOCK_OFF_HOUR) :
    initialClockState.previousMinute = 0 ∧
    (tick initialClockState t).program = some .showTime ∧
    (tick initialClockState t).program ≠ some .antiPoisoning := by
  have hp := tick_program_on initialClockState t hw
  have : dispatchProgram initialClockState.previousMinute t.minute =
      .showTime := by
    rw [show initialClockState.previousMinute = 0 from rfl, hm]
    exact dispatchProgram_self 0
  rw [hp, this]
  exact ⟨rfl, rfl, by decide⟩

/-- Witness for `previousMinute_init_first_tick_showTime` at minute 0,
hour 12. -/
theorem previousMinute_init_first_tick_showTime_witness :
    initialClockState.previousMinute = 0 ∧
    (tick initialClockState ⟨12, 12, 0, 30, 1, 1, 2021⟩).program =
      some .showTime ∧
    (tick initialClockState ⟨12, 12, 0, 30, 1, 1, 2021⟩).program ≠
      some .antiPoisoning :=
  previousMinute_init_first_tick_showTime ⟨12, 12, 0, 30, 1, 1, 2021⟩
    rfl (by decide)

/-- C7 counterexample: the claim lists the suppressible tens digits as
exactly hour tens, day tens and year tens — but the date branch of
`updateDisplay` also suppresses the month tens digit.  With month = 3 and
suppression on, slot NX1 (position 0 of the date frame) renders BLANK
instead of 0, so a field outside the claim's list is suppressed. -/
theorem leading_zero_month_tens_also_suppressed :
    SUPPRESS_LEADING_ZEROS = true ∧
    (dateSlots 3 15 21 true)[0]? = some BLANK_DIGIT ∧
    (dateSlots 3 15 21 false)[0]? = some 0 := by
  decide

/-- C7 (amended): when leading-zero suppression is enabled, a tens digit of
0 renders BLANK instead of 0 exactly for the hour tens digit (time display)
and the month tens, day tens and year tens digits (date display); the hour
units, minute, second, month units, day units and year units digits are
never suppressed.  Concretely, for hour = 7 with suppression on, NX1
renders BLANK and NX2 renders 7; with suppression off NX1 renders 0 and NX2
renders 7. -/
theorem leading_zero_suppression_fields (h m s mon d y : Nat) :
    ((timeSlots h m s true)[0]? =
      some (if h < 10 then BLANK_DIGIT else h / 10)) ∧
    ((timeSlots h m s false)[0]? = some (if h < 10 then 0 else h / 10)) ∧
    (∀ b : Bool,
      (timeSlots h m s b)[1]? = some (h % 10) ∧
      (timeSlots h m s b)[2]? = some (m / 10) ∧
      (timeSlots h m s b)[3]? = some (m % 10) ∧
      (timeSlots h m s b)[4]? = some (s / 10) ∧
      (timeSlots h m s b)[5]? = some (s % 10)) ∧
    ((dateSlots mon d y true)[0]? =
      some (if mon < 10 then BLANK_DIGIT else mon / 10)) ∧
    ((dateSlots mon d y false)[0]? = some (if mon < 10 then 0 else mon / 10)) ∧
    ((dateSlots mon d y true)[2]? =
      some (if d < 10 then BLANK_DIGIT else d / 10)) ∧
    ((dateSlots mon d y false)[2]? = some (if d < 10 then 0 else d / 10)) ∧
    ((dateSlots mon d y true)[4]? =
      some (if y < 10 then BLANK_DIGIT else y / 10)) ∧
    ((dateSlots mon d y false)[4]? = some (if y < 10 then 0 else y / 10)) ∧
    (∀ b : Bool,
      (dateSlots mon d y b)[1]? = some (mon % 10) ∧
      (dateSlots mon d y b)[3]? = some (d % 10) ∧
      (dateSlots mon d y b)[5]? = some (y % 10)) ∧
    ((timeSlots 7 m s true)[0]? = some BLANK_DIGIT ∧
      (timeSlots 7 m s true)[1]? = some 7) ∧
    ((timeSlots 7 m s false)[0]? = some 0 ∧
      (timeSlots 7 m s false)[1]? = some 7) := by
  refine ⟨?_, ?_, fun b => ⟨rfl, rfl, rfl, rfl, rfl⟩, ?_, ?_, ?_, ?_, ?_, ?_,
    fun b => ⟨rfl, rfl, rfl⟩, ⟨?_, rfl⟩, ⟨?_, rfl⟩⟩ <;>
    simp only [timeSlots, dateSlots, tensDigit] <;>
    split_ifs <;> simp_all <;> omega
